import Mathlib

/-!
Shallow embedding of the VWAP multi-timeframe trading strategy
(`src/src/vwap_strategy.py`, class `VWAPMultiTimeframeStrategy`).

Prices, volumes and balances are modelled as exact rationals (the Python
code uses IEEE floats; all claims under study concern comparisons and
field arithmetic, which agree with the exact model).  Timestamps are
modelled as integer nanoseconds, matching `bar.ts_event`; the elapsed
time in seconds is the exact rational `(ts - entry_ts) / 10^9`, matching
`(bar_time - self.entry_time).total_seconds()`.

External collaborators are modelled as per-event inputs:
the two `VolumeWeightedAveragePrice` indicator values and their
readiness flags (the indicators live in the `nautilus_trader` framework
and are updated before `on_bar` runs), the portfolio's reported net
position, and the account balance (`None` when unavailable).
The instrument operations `make_qty` (precision rounding) is modelled as
exact, and `calculate_base_quantity` is abstracted as a configuration
function `calcBaseQty`, applied exactly where the source applies it.
The numeric square root used by `np.std` is abstracted as a
configuration function `sqrtFn` applied to the population variance
(`np.std` computes the square root of the mean of squared deviations);
its exact real semantics is used in the theorems about the bands.
-/

namespace Vwap

/-- Order side, mirroring `nautilus_trader`'s `OrderSide.BUY` / `OrderSide.SELL`
as used by the strategy. -/
inductive Side where
  | buy
  | sell
deriving DecidableEq, Repr

/-- A submitted market-order intent: side, quantity, and the `reduce_only`
flag passed to `order_factory.market` (all orders in the source are market
orders with `TimeInForce.GTC`, so those fields are omitted). -/
structure OrderIntent where
  side : Side
  quantity : ℚ
  reduceOnly : Bool
deriving DecidableEq, Repr

/-- The bar fields the strategy reads: high, low, close, volume and the
event timestamp in nanoseconds (`bar.ts_event`). -/
structure BarQ where
  high : ℚ
  low : ℚ
  close : ℚ
  volume : ℚ
  tsEvent : ℤ
deriving DecidableEq, Repr

/-- `VWAPStrategyConfig` fields used by the embedded logic, plus the
abstracted external instrument/number operations (see module comment). -/
structure Config where
  instrumentId : ℕ
  vwapPeriod15min : ℕ
  stdDevMultiplier : ℚ
  entryVolumeThreshold : ℚ
  riskPerTrade : ℚ
  timeExitHours : ℤ
  minQuantity : ℚ
  sqrtFn : ℚ → ℚ
  calcBaseQty : ℚ → ℚ → ℚ

/-- The strategy's mutable attributes (`__init__`, lines 70-92 of the
source).  `vwap15Ready` / `vwap4hReady` are not stored here: indicator
readiness (`self.vwap_15min.initialized` etc.) belongs to the external
indicator objects and arrives as part of each bar's input. -/
structure State where
  bars15min : List BarQ
  bars4h : List BarQ
  volumes15min : List ℚ
  last15minPrice : ℚ
  last15minVwap : ℚ
  upperBand15min : ℚ
  lowerBand15min : ℚ
  inPosition : Bool
  positionSide : Option Side
  entryTime : Option ℤ
  currentPositionId : Option ℕ
  tradesTotal : ℕ
  tradesWon : ℕ
  tradesLost : ℕ
deriving DecidableEq, Repr

/-- The freshly constructed strategy state (`__init__`). -/
def initialState : State :=
  { bars15min := []
    bars4h := []
    volumes15min := []
    last15minPrice := 0
    last15minVwap := 0
    upperBand15min := 0
    lowerBand15min := 0
    inPosition := false
    positionSide := none
    entryTime := none
    currentPositionId := none
    tradesTotal := 0
    tradesWon := 0
    tradesLost := 0 }

/-- External inputs accompanying one 15-minute bar: the bar itself, the
readiness flags and current values of the two VWAP indicators, the
portfolio's reported net position for the instrument, and the account
balance (`none` when `get_account_balance` fails). -/
structure BarInput where
  bar : BarQ
  vwap15Ready : Bool
  vwap4hReady : Bool
  vwap15 : ℚ
  vwap4h : ℚ
  netPosition : ℚ
  balance : Option ℚ
deriving Repr

/-- Append to a `deque(maxlen=cap)`: add on the right, evict from the left
when over capacity (`self.volumes_15min`, capacity 20). -/
def dequeAppend (cap : ℕ) (xs : List ℚ) (v : ℚ) : List ℚ :=
  let ys := xs ++ [v]
  ys.drop (ys.length - cap)

/-- Python slice `xs[-n:]`: the last `n` elements, or the whole list when
`n = 0` (Python's `xs[-0:]` is `xs[0:]`). -/
def sliceLast (n : ℕ) (xs : List α) : List α :=
  if n = 0 then xs else xs.drop (xs.length - n)

/-- Population variance: the mean of squared deviations from the mean.
`np.std(xs)` (default `ddof=0`) is the square root of this quantity. -/
def popVariance (xs : List ℚ) : ℚ :=
  if xs.length = 0 then 0
  else
    ((xs.map (fun x => (x - xs.sum / xs.length) ^ 2)).sum) / xs.length

/-- Sample variance: squared deviations summed and divided by `n - 1`
(what `np.std(xs, ddof=1)` would square-root).  Used only to state the
specification's claimed band formula. -/
def sampleVariance (xs : List ℚ) : ℚ :=
  if xs.length ≤ 1 then 0
  else
    ((xs.map (fun x => (x - xs.sum / xs.length) ^ 2)).sum) / ((xs.length : ℚ) - 1)

/-- The crossover-condition shape of lines 282-285 / 287-290: at
evaluation time the source reads `self.last_15min_price` (which line 158
has already overwritten with the current bar's close), the current
15-minute VWAP, and `self.last_15min_vwap` (the value stored at the end
of the previous update). -/
def crossAboveCond (lastPrice currentVwap lastVwap : ℚ) : Bool :=
  lastPrice > currentVwap && lastPrice ≤ lastVwap

/-- Mirror condition of `crossAboveCond` (lines 287-290). -/
def crossBelowCond (lastPrice currentVwap lastVwap : ℚ) : Bool :=
  lastPrice < currentVwap && lastPrice ≥ lastVwap

/-- Volume-ratio computation of lines 205-217, applied to the volume
deque after the current bar's volume has been appended (line 154 runs
before line 207): the average of the deque contents, with the ratio
defined as 0 when the average is 0 (or the deque empty). -/
def volumeRatioOf (volumes : List ℚ) (currentVolume : ℚ) : ℚ :=
  let avg := if volumes = [] then 0 else volumes.sum / (volumes.length : ℚ)
  if avg = 0 then 0 else currentVolume / avg

/-- Band recomputation, lines 172-194: once at least `vwap_period_15min`
15-minute bars are stored, take the last `vwap_period_15min` of them,
map each to its typical price `(high + low + close) / 3`, and set the
bands to the current 15-minute VWAP plus/minus `np.std` of those typical
prices times `std_dev_multiplier`.  The numeric square root inside
`np.std` is `cfg.sqrtFn` applied to the population variance. -/
def updateBands (cfg : Config) (vwap15 : ℚ) (s : State) : State :=
  if cfg.vwapPeriod15min ≤ s.bars15min.length then
    let recent := sliceLast cfg.vwapPeriod15min s.bars15min
    let prices := recent.map (fun b => (b.high + b.low + b.close) / 3)
    let stdDev := cfg.sqrtFn (popVariance prices)
    { s with
      upperBand15min := vwap15 + stdDev * cfg.stdDevMultiplier
      lowerBand15min := vwap15 - stdDev * cfg.stdDevMultiplier }
  else s

/-- Exit logic `_exit_position`, lines 399-439.  If not in a position (or
the side is unset) nothing happens.  Otherwise the exit side opposes the
recorded side; the quantity is the portfolio's reported net position,
negated when the exit side is BUY.  A reported net position of exactly 0
resets the tracking variables defensively and submits nothing.  The
submitted order carries `reduce_only=False` (line 430). -/
def exitPosition (cfg : Config) (inp : BarInput) (s : State) :
    State × List OrderIntent :=
  if s.inPosition = false ∨ s.positionSide = none then (s, [])
  else
    let exitSide := if s.positionSide = some Side.buy then Side.sell else Side.buy
    if inp.netPosition = 0 then
      ({ s with inPosition := false, positionSide := none,
                entryTime := none, currentPositionId := none }, [])
    else
      let qty := if exitSide = Side.buy then -inp.netPosition else inp.netPosition
      (s, [{ side := exitSide, quantity := qty, reduceOnly := false }])

/-- Entry logic `_enter_position`, lines 328-397.  Aborts (state
unchanged, no order) when already in a position, when the balance is
unavailable, or when the distance from the close to the side-appropriate
band stop is not positive.  Otherwise the quantity is
`balance * risk_per_trade / distance`, clamped up to the minimum lot,
converted through the instrument's base-quantity calculation, and the
tracking variables are set (`trades_total` is incremented here, line
397). -/
def enterPosition (cfg : Config) (side : Side) (inp : BarInput) (s : State) :
    State × List OrderIntent :=
  if s.inPosition then (s, [])
  else
    match inp.balance with
    | none => (s, [])
    | some balance =>
      let currentPrice := inp.bar.close
      let stopPrice := if side = Side.buy then s.lowerBand15min else s.upperBand15min
      let riskAmount := balance * cfg.riskPerTrade
      let priceDistance := |currentPrice - stopPrice|
      if priceDistance ≤ 0 then (s, [])
      else
        let positionSize := riskAmount / priceDistance
        let positionQty :=
          if positionSize < cfg.minQuantity then cfg.minQuantity else positionSize
        ({ s with inPosition := true, positionSide := some side,
                  entryTime := some inp.bar.tsEvent,
                  tradesTotal := s.tradesTotal + 1 },
         [{ side := side,
            quantity := cfg.calcBaseQty positionQty currentPrice,
            reduceOnly := false }])

/-- Time-based exit check, lines 227-236: while in a position with a
recorded entry time, exit when the elapsed seconds since entry strictly
exceed `time_exit_hours * 3600`.  The source does not return after this
call, so processing continues with the same (possibly order-emitting)
state. -/
def timeExitStep (cfg : Config) (inp : BarInput) (s : State) :
    State × List OrderIntent :=
  if s.inPosition then
    match s.entryTime with
    | some et =>
      if ((inp.bar.tsEvent - et : ℤ) : ℚ) / 1000000000 >
          (cfg.timeExitHours : ℚ) * 3600 then
        exitPosition cfg inp s
      else (s, [])
    | none => (s, [])
  else (s, [])

/-- Lines 239-309: while in a position, the side's take-profit is checked
before its stop-loss (if/elif); otherwise (the `elif not self.in_position`
branch) the entry signals are evaluated. -/
def exitOrEntryStep (cfg : Config) (inp : BarInput) (vwap15 vwap4h vrat : ℚ)
    (s : State) : State × List OrderIntent :=
  if s.inPosition then
    match s.positionSide with
    | some Side.buy =>
      if inp.bar.close ≥ s.upperBand15min then exitPosition cfg inp s
      else if inp.bar.close < vwap15 then exitPosition cfg inp s
      else (s, [])
    | some Side.sell =>
      if inp.bar.close ≤ s.lowerBand15min then exitPosition cfg inp s
      else if inp.bar.close > vwap15 then exitPosition cfg inp s
      else (s, [])
    | none => (s, [])
  else
    if inp.bar.close > vwap4h
        ∧ crossAboveCond s.last15minPrice vwap15 s.last15minVwap = true
        ∧ vrat ≥ cfg.entryVolumeThreshold then
      enterPosition cfg Side.buy inp s
    else if inp.bar.close < vwap4h
        ∧ crossBelowCond s.last15minPrice vwap15 s.last15minVwap = true
        ∧ vrat ≥ cfg.entryVolumeThreshold then
      enterPosition cfg Side.sell inp s
    else (s, [])

/-- The lines 152-158 block: store the bar, append its volume to the
capacity-20 deque, and overwrite `last_15min_price` with the current
bar's close.  This runs on every 15-minute bar, before the readiness
check. -/
def bookkeep (inp : BarInput) (s : State) : State :=
  { s with
    bars15min := s.bars15min ++ [inp.bar]
    volumes15min := dequeAppend 20 s.volumes15min inp.bar.volume
    last15minPrice := inp.bar.close }

/-- The 15-minute bar handler `_process_15min_bar`, lines 148-312.
Bookkeeping (bar stored, volume appended, `last_15min_price`
overwritten with the current close) happens before the readiness check;
the bands are recomputed before the `last_15min_vwap != 0` guard; the
entire signal block (volume ratio, time exit, band exits, entries) is
guarded by that inequality; and `last_15min_vwap` is stored for the next
update on every post-readiness path. -/
def process15minBar (cfg : Config) (inp : BarInput) (s : State) :
    State × List OrderIntent :=
  let s1 := bookkeep inp s
  if inp.vwap15Ready = false ∨ inp.vwap4hReady = false then (s1, [])
  else
    let s2 := updateBands cfg inp.vwap15 s1
    if s2.last15minVwap = 0 then ({ s2 with last15minVwap := inp.vwap15 }, [])
    else
      let vrat := volumeRatioOf s2.volumes15min inp.bar.volume
      let p1 := timeExitStep cfg inp s2
      let p2 := exitOrEntryStep cfg inp inp.vwap15 inp.vwap4h vrat p1.1
      ({ p2.1 with last15minVwap := inp.vwap15 }, p1.2 ++ p2.2)

/-- The 4-hour bar handler `_process_4h_bar`, lines 314-326: the bar is
stored; everything else is logging. -/
def process4hBar (bar : BarQ) (s : State) : State :=
  { s with bars4h := s.bars4h ++ [bar] }

/-- `on_position_opened`, lines 441-454: for this instrument, record the
position identifier. -/
def onPositionOpened (cfg : Config) (instrumentId positionId : ℕ) (s : State) :
    State :=
  if instrumentId ≠ cfg.instrumentId then s
  else { s with currentPositionId := some positionId }

/-- `on_position_closed`, lines 456-502: for this instrument, when the
event's position identifier matches the recorded one, classify the trade
by the sign of the realized PnL (`>= 0` is a win) and reset the tracking
variables. -/
def onPositionClosed (cfg : Config) (instrumentId positionId : ℕ) (pnl : ℚ)
    (s : State) : State :=
  if instrumentId ≠ cfg.instrumentId then s
  else if s.currentPositionId = some positionId then
    let s' :=
      if pnl ≥ 0 then { s with tradesWon := s.tradesWon + 1 }
      else { s with tradesLost := s.tradesLost + 1 }
    { s' with inPosition := false, positionSide := none,
              entryTime := none, currentPositionId := none }
  else s

/-- The events the engine consumes: bars dispatched by `on_bar` (a bar of
any other type falls through both branches and does nothing) and the two
position-lifecycle callbacks. -/
inductive Event where
  | bar15 (inp : BarInput)
  | bar4h (bar : BarQ)
  | barOther (bar : BarQ)
  | positionOpened (instrumentId positionId : ℕ)
  | positionClosed (instrumentId positionId : ℕ) (realizedPnl : ℚ)

/-- Dispatch one event to its handler, returning the new state and any
submitted order intents. -/
def handleEvent (cfg : Config) (e : Event) (s : State) :
    State × List OrderIntent :=
  match e with
  | .bar15 inp => process15minBar cfg inp s
  | .bar4h b => (process4hBar b s, [])
  | .barOther _ => (s, [])
  | .positionOpened i p => (onPositionOpened cfg i p s, [])
  | .positionClosed i p pnl => (onPositionClosed cfg i p pnl s, [])

/-- The risk-sizing formula of `_enter_position`, lines 358-372 (and the
specification's Risk Sizer contract): `balance * riskFraction /
priceDistance`, clamped up to the minimum lot when below it. -/
def riskSize (balance riskFraction priceDistance minLot : ℚ) : ℚ :=
  let raw := balance * riskFraction / priceDistance
  if raw < minLot then minLot else raw

/-! ### Helper lemmas about the individual steps -/

@[simp] theorem bookkeep_inPosition (inp : BarInput) (s : State) :
    (bookkeep inp s).inPosition = s.inPosition := rfl

@[simp] theorem bookkeep_positionSide (inp : BarInput) (s : State) :
    (bookkeep inp s).positionSide = s.positionSide := rfl

@[simp] theorem bookkeep_entryTime (inp : BarInput) (s : State) :
    (bookkeep inp s).entryTime = s.entryTime := rfl

@[simp] theorem bookkeep_currentPositionId (inp : BarInput) (s : State) :
    (bookkeep inp s).currentPositionId = s.currentPositionId := rfl

@[simp] theorem bookkeep_tradesTotal (inp : BarInput) (s : State) :
    (bookkeep inp s).tradesTotal = s.tradesTotal := rfl

@[simp] theorem bookkeep_tradesWon (inp : BarInput) (s : State) :
    (bookkeep inp s).tradesWon = s.tradesWon := rfl

@[simp] theorem bookkeep_tradesLost (inp : BarInput) (s : State) :
    (bookkeep inp s).tradesLost = s.tradesLost := rfl

@[simp] theorem bookkeep_last15minVwap (inp : BarInput) (s : State) :
    (bookkeep inp s).last15minVwap = s.last15minVwap := rfl

@[simp] theorem bookkeep_last15minPrice (inp : BarInput) (s : State) :
    (bookkeep inp s).last15minPrice = inp.bar.close := rfl

@[simp] theorem bookkeep_upperBand (inp : BarInput) (s : State) :
    (bookkeep inp s).upperBand15min = s.upperBand15min := rfl

@[simp] theorem bookkeep_lowerBand (inp : BarInput) (s : State) :
    (bookkeep inp s).lowerBand15min = s.lowerBand15min := rfl

@[simp] theorem bookkeep_volumes15min (inp : BarInput) (s : State) :
    (bookkeep inp s).volumes15min = dequeAppend 20 s.volumes15min inp.bar.volume := rfl

@[simp] theorem bookkeep_bars15min (inp : BarInput) (s : State) :
    (bookkeep inp s).bars15min = s.bars15min ++ [inp.bar] := rfl

theorem exitPosition_fst_of_net_ne_zero (cfg : Config) (inp : BarInput) (s : State)
    (h : inp.netPosition ≠ 0) : (exitPosition cfg inp s).1 = s := by
  unfold exitPosition
  try dsimp only
  repeat' split
  all_goals simp_all

theorem exitPosition_orders_length (cfg : Config) (inp : BarInput) (s : State) :
    (exitPosition cfg inp s).2.length ≤ 1 := by
  unfold exitPosition
  try dsimp only
  repeat' split
  all_goals simp

theorem exitPosition_counters (cfg : Config) (inp : BarInput) (s : State) :
    (exitPosition cfg inp s).1.tradesTotal = s.tradesTotal
    ∧ (exitPosition cfg inp s).1.tradesWon = s.tradesWon
    ∧ (exitPosition cfg inp s).1.tradesLost = s.tradesLost := by
  unfold exitPosition
  try dsimp only
  repeat' split
  all_goals exact ⟨rfl, rfl, rfl⟩

theorem exitPosition_bands (cfg : Config) (inp : BarInput) (s : State) :
    (exitPosition cfg inp s).1.upperBand15min = s.upperBand15min
    ∧ (exitPosition cfg inp s).1.lowerBand15min = s.lowerBand15min := by
  unfold exitPosition
  try dsimp only
  repeat' split
  all_goals exact ⟨rfl, rfl⟩

theorem enterPosition_of_inPosition (cfg : Config) (side : Side) (inp : BarInput)
    (s : State) (h : s.inPosition = true) : enterPosition cfg side inp s = (s, []) := by
  unfold enterPosition
  try dsimp only
  simp [h]

theorem enterPosition_orders_length (cfg : Config) (side : Side) (inp : BarInput)
    (s : State) : (enterPosition cfg side inp s).2.length ≤ 1 := by
  unfold enterPosition
  try dsimp only
  repeat' split
  all_goals simp

theorem enterPosition_won_lost (cfg : Config) (side : Side) (inp : BarInput)
    (s : State) :
    (enterPosition cfg side inp s).1.tradesWon = s.tradesWon
    ∧ (enterPosition cfg side inp s).1.tradesLost = s.tradesLost := by
  unfold enterPosition
  try dsimp only
  repeat' split
  all_goals exact ⟨rfl, rfl⟩

theorem enterPosition_total_cases (cfg : Config) (side : Side) (inp : BarInput)
    (s : State) :
    (enterPosition cfg side inp s).1.tradesTotal = s.tradesTotal
    ∨ (enterPosition cfg side inp s).1.tradesTotal = s.tradesTotal + 1 := by
  unfold enterPosition
  try dsimp only
  repeat' split
  all_goals first | exact Or.inl rfl | exact Or.inr rfl

theorem enterPosition_bands (cfg : Config) (side : Side) (inp : BarInput)
    (s : State) :
    (enterPosition cfg side inp s).1.upperBand15min = s.upperBand15min
    ∧ (enterPosition cfg side inp s).1.lowerBand15min = s.lowerBand15min := by
  unfold enterPosition
  try dsimp only
  repeat' split
  all_goals exact ⟨rfl, rfl⟩

theorem timeExitStep_of_flat (cfg : Config) (inp : BarInput) (s : State)
    (h : s.inPosition = false) : timeExitStep cfg inp s = (s, []) := by
  unfold timeExitStep
  try dsimp only
  simp [h]

theorem timeExitStep_of_silent (cfg : Config) (inp : BarInput) (s : State)
    (h : ∀ et, s.entryTime = some et →
      ¬(((inp.bar.tsEvent - et : ℤ) : ℚ) / 1000000000 >
          (cfg.timeExitHours : ℚ) * 3600)) :
    timeExitStep cfg inp s = (s, []) := by
  unfold timeExitStep
  split
  · split
    · next et heq =>
      rw [if_neg (h et heq)]
    · rfl
  · rfl

theorem timeExitStep_orders_length (cfg : Config) (inp : BarInput) (s : State) :
    (timeExitStep cfg inp s).2.length ≤ 1 := by
  unfold timeExitStep
  try dsimp only
  repeat' split
  all_goals first | exact exitPosition_orders_length .. | simp

theorem timeExitStep_fst_of_net_ne_zero (cfg : Config) (inp : BarInput) (s : State)
    (h : inp.netPosition ≠ 0) : (timeExitStep cfg inp s).1 = s := by
  unfold timeExitStep
  try dsimp only
  repeat' split
  all_goals first | exact exitPosition_fst_of_net_ne_zero cfg inp s h | rfl

theorem timeExitStep_counters (cfg : Config) (inp : BarInput) (s : State) :
    (timeExitStep cfg inp s).1.tradesTotal = s.tradesTotal
    ∧ (timeExitStep cfg inp s).1.tradesWon = s.tradesWon
    ∧ (timeExitStep cfg inp s).1.tradesLost = s.tradesLost := by
  unfold timeExitStep
  try dsimp only
  repeat' split
  all_goals first | exact exitPosition_counters .. | exact ⟨rfl, rfl, rfl⟩

theorem timeExitStep_bands (cfg : Config) (inp : BarInput) (s : State) :
    (timeExitStep cfg inp s).1.upperBand15min = s.upperBand15min
    ∧ (timeExitStep cfg inp s).1.lowerBand15min = s.lowerBand15min := by
  unfold timeExitStep
  try dsimp only
  repeat' split
  all_goals first | exact exitPosition_bands .. | exact ⟨rfl, rfl⟩

theorem exitOrEntryStep_orders_length (cfg : Config) (inp : BarInput)
    (vwap15 vwap4h vrat : ℚ) (s : State) :
    (exitOrEntryStep cfg inp vwap15 vwap4h vrat s).2.length ≤ 1 := by
  unfold exitOrEntryStep
  try dsimp only
  repeat' split
  all_goals first
    | exact exitPosition_orders_length ..
    | exact enterPosition_orders_length ..
    | simp

theorem exitOrEntryStep_fst_of_pos_net (cfg : Config) (inp : BarInput)
    (vwap15 vwap4h vrat : ℚ) (s : State)
    (hpos : s.inPosition = true) (hnet : inp.netPosition ≠ 0) :
    (exitOrEntryStep cfg inp vwap15 vwap4h vrat s).1 = s := by
  unfold exitOrEntryStep
  try dsimp only
  rw [if_pos hpos]
  repeat' split
  all_goals first | exact exitPosition_fst_of_net_ne_zero cfg inp s hnet | rfl

theorem exitOrEntryStep_won_lost (cfg : Config) (inp : BarInput)
    (vwap15 vwap4h vrat : ℚ) (s : State) :
    (exitOrEntryStep cfg inp vwap15 vwap4h vrat s).1.tradesWon = s.tradesWon
    ∧ (exitOrEntryStep cfg inp vwap15 vwap4h vrat s).1.tradesLost = s.tradesLost := by
  unfold exitOrEntryStep
  try dsimp only
  repeat' split
  all_goals first
    | exact ⟨(exitPosition_counters ..).2.1, (exitPosition_counters ..).2.2⟩
    | exact enterPosition_won_lost ..
    | exact ⟨rfl, rfl⟩

theorem exitOrEntryStep_total_cases (cfg : Config) (inp : BarInput)
    (vwap15 vwap4h vrat : ℚ) (s : State) :
    (exitOrEntryStep cfg inp vwap15 vwap4h vrat s).1.tradesTotal = s.tradesTotal
    ∨ (exitOrEntryStep cfg inp vwap15 vwap4h vrat s).1.tradesTotal = s.tradesTotal + 1 := by
  unfold exitOrEntryStep
  try dsimp only
  repeat' split
  all_goals first
    | exact Or.inl (exitPosition_counters ..).1
    | exact enterPosition_total_cases ..
    | exact Or.inl rfl

theorem exitOrEntryStep_bands (cfg : Config) (inp : BarInput)
    (vwap15 vwap4h vrat : ℚ) (s : State) :
    (exitOrEntryStep cfg inp vwap15 vwap4h vrat s).1.upperBand15min = s.upperBand15min
    ∧ (exitOrEntryStep cfg inp vwap15 vwap4h vrat s).1.lowerBand15min = s.lowerBand15min := by
  unfold exitOrEntryStep
  try dsimp only
  repeat' split
  all_goals first
    | exact exitPosition_bands ..
    | exact enterPosition_bands ..
    | exact ⟨rfl, rfl⟩

@[simp] theorem updateBands_inPosition (cfg : Config) (v : ℚ) (s : State) :
    (updateBands cfg v s).inPosition = s.inPosition := by
  unfold updateBands
  split <;> rfl

@[simp] theorem updateBands_positionSide (cfg : Config) (v : ℚ) (s : State) :
    (updateBands cfg v s).positionSide = s.positionSide := by
  unfold updateBands
  split <;> rfl

@[simp] theorem updateBands_entryTime (cfg : Config) (v : ℚ) (s : State) :
    (updateBands cfg v s).entryTime = s.entryTime := by
  unfold updateBands
  split <;> rfl

@[simp] theorem updateBands_currentPositionId (cfg : Config) (v : ℚ) (s : State) :
    (updateBands cfg v s).currentPositionId = s.currentPositionId := by
  unfold updateBands
  split <;> rfl

@[simp] theorem updateBands_tradesTotal (cfg : Config) (v : ℚ) (s : State) :
    (updateBands cfg v s).tradesTotal = s.tradesTotal := by
  unfold updateBands
  split <;> rfl

@[simp] theorem updateBands_tradesWon (cfg : Config) (v : ℚ) (s : State) :
    (updateBands cfg v s).tradesWon = s.tradesWon := by
  unfold updateBands
  split <;> rfl

@[simp] theorem updateBands_tradesLost (cfg : Config) (v : ℚ) (s : State) :
    (updateBands cfg v s).tradesLost = s.tradesLost := by
  unfold updateBands
  split <;> rfl

@[simp] theorem updateBands_last15minVwap (cfg : Config) (v : ℚ) (s : State) :
    (updateBands cfg v s).last15minVwap = s.last15minVwap := by
  unfold updateBands
  split <;> rfl

@[simp] theorem updateBands_last15minPrice (cfg : Config) (v : ℚ) (s : State) :
    (updateBands cfg v s).last15minPrice = s.last15minPrice := by
  unfold updateBands
  split <;> rfl

@[simp] theorem updateBands_volumes15min (cfg : Config) (v : ℚ) (s : State) :
    (updateBands cfg v s).volumes15min = s.volumes15min := by
  unfold updateBands
  split <;> rfl

@[simp] theorem updateBands_bars15min (cfg : Config) (v : ℚ) (s : State) :
    (updateBands cfg v s).bars15min = s.bars15min := by
  unfold updateBands
  split <;> rfl

theorem updateBands_of_short (cfg : Config) (v : ℚ) (s : State)
    (h : s.bars15min.length < cfg.vwapPeriod15min) :
    updateBands cfg v s = s := by
  unfold updateBands
  try dsimp only
  rw [if_neg (by omega)]

theorem updateBands_of_full (cfg : Config) (v : ℚ) (s : State)
    (h : cfg.vwapPeriod15min ≤ s.bars15min.length) :
    (updateBands cfg v s).upperBand15min =
      v + cfg.sqrtFn (popVariance
        ((sliceLast cfg.vwapPeriod15min s.bars15min).map
          (fun b => (b.high + b.low + b.close) / 3))) * cfg.stdDevMultiplier
    ∧ (updateBands cfg v s).lowerBand15min =
      v - cfg.sqrtFn (popVariance
        ((sliceLast cfg.vwapPeriod15min s.bars15min).map
          (fun b => (b.high + b.low + b.close) / 3))) * cfg.stdDevMultiplier := by
  unfold updateBands
  try dsimp only
  rw [if_pos h]
  exact ⟨rfl, rfl⟩

@[simp] theorem timeExitStep_fst_tradesTotal (cfg : Config) (inp : BarInput)
    (s : State) : (timeExitStep cfg inp s).1.tradesTotal = s.tradesTotal :=
  (timeExitStep_counters cfg inp s).1

@[simp] theorem timeExitStep_fst_tradesWon (cfg : Config) (inp : BarInput)
    (s : State) : (timeExitStep cfg inp s).1.tradesWon = s.tradesWon :=
  (timeExitStep_counters cfg inp s).2.1

@[simp] theorem timeExitStep_fst_tradesLost (cfg : Config) (inp : BarInput)
    (s : State) : (timeExitStep cfg inp s).1.tradesLost = s.tradesLost :=
  (timeExitStep_counters cfg inp s).2.2

@[simp] theorem timeExitStep_fst_upperBand (cfg : Config) (inp : BarInput)
    (s : State) : (timeExitStep cfg inp s).1.upperBand15min = s.upperBand15min :=
  (timeExitStep_bands cfg inp s).1

@[simp] theorem timeExitStep_fst_lowerBand (cfg : Config) (inp : BarInput)
    (s : State) : (timeExitStep cfg inp s).1.lowerBand15min = s.lowerBand15min :=
  (timeExitStep_bands cfg inp s).2

@[simp] theorem exitOrEntryStep_fst_tradesWon (cfg : Config) (inp : BarInput)
    (vwap15 vwap4h vrat : ℚ) (s : State) :
    (exitOrEntryStep cfg inp vwap15 vwap4h vrat s).1.tradesWon = s.tradesWon :=
  (exitOrEntryStep_won_lost cfg inp vwap15 vwap4h vrat s).1

@[simp] theorem exitOrEntryStep_fst_tradesLost (cfg : Config) (inp : BarInput)
    (vwap15 vwap4h vrat : ℚ) (s : State) :
    (exitOrEntryStep cfg inp vwap15 vwap4h vrat s).1.tradesLost = s.tradesLost :=
  (exitOrEntryStep_won_lost cfg inp vwap15 vwap4h vrat s).2

@[simp] theorem exitOrEntryStep_fst_upperBand (cfg : Config) (inp : BarInput)
    (vwap15 vwap4h vrat : ℚ) (s : State) :
    (exitOrEntryStep cfg inp vwap15 vwap4h vrat s).1.upperBand15min =
      s.upperBand15min :=
  (exitOrEntryStep_bands cfg inp vwap15 vwap4h vrat s).1

@[simp] theorem exitOrEntryStep_fst_lowerBand (cfg : Config) (inp : BarInput)
    (vwap15 vwap4h vrat : ℚ) (s : State) :
    (exitOrEntryStep cfg inp vwap15 vwap4h vrat s).1.lowerBand15min =
      s.lowerBand15min :=
  (exitOrEntryStep_bands cfg inp vwap15 vwap4h vrat s).2

/-- One 15-minute bar never changes the win or loss counters (they are
touched only in `on_position_closed`). -/
theorem process15minBar_won_lost (cfg : Config) (inp : BarInput) (s : State) :
    (process15minBar cfg inp s).1.tradesWon = s.tradesWon
    ∧ (process15minBar cfg inp s).1.tradesLost = s.tradesLost := by
  unfold process15minBar
  try dsimp only
  split
  · exact ⟨by simp, by simp⟩
  · split
    · exact ⟨by simp, by simp⟩
    · exact ⟨by simp, by simp⟩

/-- One 15-minute bar leaves the trade-total counter unchanged or
increments it by exactly one (the increment happens only inside
`_enter_position`). -/
theorem process15minBar_total_cases (cfg : Config) (inp : BarInput) (s : State) :
    (process15minBar cfg inp s).1.tradesTotal = s.tradesTotal
    ∨ (process15minBar cfg inp s).1.tradesTotal = s.tradesTotal + 1 := by
  unfold process15minBar
  try dsimp only
  split
  · left
    simp
  · split
    · left
      simp
    · rcases exitOrEntryStep_total_cases cfg inp inp.vwap15 inp.vwap4h
        (volumeRatioOf (updateBands cfg inp.vwap15 (bookkeep inp s)).volumes15min
          inp.bar.volume)
        ((timeExitStep cfg inp (updateBands cfg inp.vwap15 (bookkeep inp s))).1)
        with h | h
      · left
        simpa using h
      · right
        simpa using h

/-! ### Claim C10 -/

/-- C10: whenever the stored previous 15-minute VWAP value equals 0 — in
particular on the first 15-minute bar after both indicators report
initialized — the engine skips the entire signal evaluation for that
bar: no order of any kind is submitted (no entry, no time-based exit, no
take-profit, no stop-loss) and the position-tracking state and the trade
counters are untouched, even when the position's configured time limit
has already elapsed (the statement places no constraint on the bar's
timestamp, the entry time, or the prices). -/
theorem c10_skip_when_no_prev_vwap (cfg : Config) (inp : BarInput) (s : State)
    (h15 : inp.vwap15Ready = true) (h4 : inp.vwap4hReady = true)
    (hz : s.last15minVwap = 0) :
    (process15minBar cfg inp s).2 = []
    ∧ (process15minBar cfg inp s).1.inPosition = s.inPosition
    ∧ (process15minBar cfg inp s).1.positionSide = s.positionSide
    ∧ (process15minBar cfg inp s).1.entryTime = s.entryTime
    ∧ (process15minBar cfg inp s).1.currentPositionId = s.currentPositionId
    ∧ (process15minBar cfg inp s).1.tradesTotal = s.tradesTotal
    ∧ (process15minBar cfg inp s).1.tradesWon = s.tradesWon
    ∧ (process15minBar cfg inp s).1.tradesLost = s.tradesLost := by
  unfold process15minBar
  try dsimp only
  rw [if_neg (by simp [h15, h4])]
  rw [if_pos (by simp [hz])]
  refine ⟨rfl, ?_, ?_, ?_, ?_, ?_, ?_, ?_⟩ <;> simp

/-- Concrete configuration shared by witnesses and counterexamples:
period 100, multiplier 2, volume threshold 3/2, risk 2 percent, 24-hour
time exit, minimum lot 1; the abstract square root and base-quantity
conversions are instantiated with identity-like functions. -/
def cfgEx : Config :=
  { instrumentId := 1, vwapPeriod15min := 100, stdDevMultiplier := 2,
    entryVolumeThreshold := 3/2, riskPerTrade := 1/50, timeExitHours := 24,
    minQuantity := 1, sqrtFn := fun q => q, calcBaseQty := fun q _ => q }

/-- A state in a long position whose configured 24-hour limit has long
expired by the witness bar's timestamp, but whose stored previous VWAP is
still 0 (the first post-initialization bar). -/
def sW10 : State :=
  { initialState with
    inPosition := true, positionSide := some Side.buy,
    entryTime := some 0, currentPositionId := some 3,
    volumes15min := [10] }

def inpW10 : BarInput :=
  { bar := { high := 50, low := 50, close := 50, volume := 10,
             tsEvent := 1000000000000000 },
    vwap15Ready := true, vwap4hReady := true, vwap15 := 100, vwap4h := 100,
    netPosition := 5, balance := some 1000 }

theorem c10_skip_when_no_prev_vwap_wit :
    sW10.last15minVwap = 0
    ∧ ((process15minBar cfgEx inpW10 sW10).2 = []
      ∧ (process15minBar cfgEx inpW10 sW10).1.inPosition = sW10.inPosition
      ∧ (process15minBar cfgEx inpW10 sW10).1.positionSide = sW10.positionSide
      ∧ (process15minBar cfgEx inpW10 sW10).1.entryTime = sW10.entryTime
      ∧ (process15minBar cfgEx inpW10 sW10).1.currentPositionId =
          sW10.currentPositionId
      ∧ (process15minBar cfgEx inpW10 sW10).1.tradesTotal = sW10.tradesTotal
      ∧ (process15minBar cfgEx inpW10 sW10).1.tradesWon = sW10.tradesWon
      ∧ (process15minBar cfgEx inpW10 sW10).1.tradesLost = sW10.tradesLost) :=
  ⟨by decide, c10_skip_when_no_prev_vwap cfgEx inpW10 sW10 rfl rfl (by decide)⟩

/-! ### Claim C4 -/

/-- State used to evaluate the exit path: a recorded long position. -/
def sC4 : State :=
  { initialState with
    inPosition := true, positionSide := some Side.buy,
    entryTime := some 0, currentPositionId := some 1 }

def inpC4 : BarInput :=
  { bar := { high := 100, low := 100, close := 100, volume := 10, tsEvent := 0 },
    vwap15Ready := true, vwap4hReady := true, vwap15 := 100, vwap4h := 100,
    netPosition := 5, balance := some 1000 }

/-- C4, evaluated at the failing input: exiting a long position while the
portfolio reports a net position of +5 submits exactly one market order,
on the side opposite the entry (SELL), with quantity equal to the
magnitude of the reported net position — but the order carries
`reduceOnly = false` (source line 430 passes `reduce_only=False`, even
though the adjacent comment claims the order only reduces the position),
contradicting the claim that the exit order is a reduce-only intent. -/
theorem c4_exit_reduce_only_eval :
    exitPosition cfgEx inpC4 sC4 =
      (sC4, [{ side := Side.sell, quantity := 5, reduceOnly := false }])
    ∧ |inpC4.netPosition| = 5
    ∧ sC4.positionSide = some Side.buy := by
  decide

/-! ### Claim C7 -/

/-- C7: the entry sizing contract of `_enter_position`.  With the engine
not in a position: an unavailable balance aborts the entry with the state
unchanged and no order; a non-positive distance from the close to the
side-appropriate band stop likewise aborts; otherwise exactly one order
is submitted whose quantity is the risk-sized amount
`balance * risk_per_trade / distance`, clamped up to the minimum lot,
passed through the instrument's base-quantity conversion at the close
price, and the position state is recorded.  The two closing conjuncts are
the specification's concrete sizing examples. -/
theorem c7_risk_sizer (cfg : Config) (side : Side) (inp : BarInput) (s : State)
    (hflat : s.inPosition = false) :
    (inp.balance = none → enterPosition cfg side inp s = (s, []))
    ∧ (∀ b, inp.balance = some b →
        |inp.bar.close -
            (if side = Side.buy then s.lowerBand15min else s.upperBand15min)| ≤ 0 →
        enterPosition cfg side inp s = (s, []))
    ∧ (∀ b, inp.balance = some b →
        ¬(|inp.bar.close -
            (if side = Side.buy then s.lowerBand15min else s.upperBand15min)| ≤ 0) →
        (enterPosition cfg side inp s).2 =
          [{ side := side,
             quantity := cfg.calcBaseQty
               (riskSize b cfg.riskPerTrade
                 (|inp.bar.close -
                   (if side = Side.buy then s.lowerBand15min else s.upperBand15min)|)
                 cfg.minQuantity) inp.bar.close,
             reduceOnly := false }]
          ∧ (enterPosition cfg side inp s).1.inPosition = true
          ∧ (enterPosition cfg side inp s).1.positionSide = some side
          ∧ (enterPosition cfg side inp s).1.entryTime = some inp.bar.tsEvent
          ∧ (enterPosition cfg side inp s).1.tradesTotal = s.tradesTotal + 1)
    ∧ riskSize 1000 (1/10) 10 1 = 10
    ∧ riskSize 1000 (1/10) 1000 1 = 1 := by
  refine ⟨?_, ?_, ?_, by norm_num [riskSize], by norm_num [riskSize]⟩
  · intro hb
    unfold enterPosition
    simp [hflat, hb]
  · intro b hb hd
    unfold enterPosition
    try dsimp only
    simp only [hflat, Bool.false_eq_true, if_false, hb]
    rw [if_pos hd]
  · intro b hb hd
    unfold enterPosition riskSize
    try dsimp only
    simp only [hflat, Bool.false_eq_true, if_false, hb]
    rw [if_neg hd]
    exact ⟨rfl, rfl, rfl, rfl, rfl⟩

/-- Configuration matching the specification's sizing example: 10 percent
risk per trade, minimum lot 1. -/
def cfgC7 : Config := { cfgEx with riskPerTrade := 1/10 }

/-- Flat state with the lower band at 0, so a long entry at close 10 has
stop distance 10. -/
def sC7 : State := { initialState with last15minVwap := 100 }

def inpC7 : BarInput :=
  { bar := { high := 10, low := 10, close := 10, volume := 10, tsEvent := 0 },
    vwap15Ready := true, vwap4hReady := true, vwap15 := 5, vwap4h := 5,
    netPosition := 0, balance := some 1000 }

theorem c7_risk_sizer_wit :
    sC7.inPosition = false
    ∧ ((inpC7.balance = none → enterPosition cfgC7 Side.buy inpC7 sC7 = (sC7, []))
      ∧ (∀ b, inpC7.balance = some b →
          |inpC7.bar.close -
              (if Side.buy = Side.buy then sC7.lowerBand15min
               else sC7.upperBand15min)| ≤ 0 →
          enterPosition cfgC7 Side.buy inpC7 sC7 = (sC7, []))
      ∧ (∀ b, inpC7.balance = some b →
          ¬(|inpC7.bar.close -
              (if Side.buy = Side.buy then sC7.lowerBand15min
               else sC7.upperBand15min)| ≤ 0) →
          (enterPosition cfgC7 Side.buy inpC7 sC7).2 =
            [{ side := Side.buy,
               quantity := cfgC7.calcBaseQty
                 (riskSize b cfgC7.riskPerTrade
                   (|inpC7.bar.close -
                     (if Side.buy = Side.buy then sC7.lowerBand15min
                      else sC7.upperBand15min)|)
                   cfgC7.minQuantity) inpC7.bar.close,
               reduceOnly := false }]
            ∧ (enterPosition cfgC7 Side.buy inpC7 sC7).1.inPosition = true
            ∧ (enterPosition cfgC7 Side.buy inpC7 sC7).1.positionSide =
                some Side.buy
            ∧ (enterPosition cfgC7 Side.buy inpC7 sC7).1.entryTime =
                some inpC7.bar.tsEvent
            ∧ (enterPosition cfgC7 Side.buy inpC7 sC7).1.tradesTotal =
                sC7.tradesTotal + 1)
      ∧ riskSize 1000 (1/10) 10 1 = 10
      ∧ riskSize 1000 (1/10) 1000 1 = 1) :=
  ⟨rfl, c7_risk_sizer cfgC7 Side.buy inpC7 sC7 rfl⟩

/-! ### Claim C2 -/

/-- State in a long position whose time limit (24 hours from entry at
time 0) is far exceeded at the counterexample bar, and whose stop-loss
condition (close 50 below the 15-minute VWAP 100) also fires. -/
def sC2 : State :=
  { initialState with
    inPosition := true, positionSide := some Side.buy,
    entryTime := some 0, last15minVwap := 100, upperBand15min := 200,
    lowerBand15min := 0, volumes15min := [10], currentPositionId := some 1 }

def inpC2 : BarInput :=
  { bar := { high := 50, low := 50, close := 50, volume := 10,
             tsEvent := 1000000000000000 },
    vwap15Ready := true, vwap4hReady := true, vwap15 := 100, vwap4h := 0,
    netPosition := 5, balance := some 1000 }

/-- C2 counterexample: on this single 15-minute bar, the time-based exit
fires (about 11.6 days elapsed against a 24-hour limit) and, because
`_process_15min_bar` does not return after the time-based
`_exit_position()` call and that call does not change any state while the
net position is nonzero, the long stop-loss (close 50 < VWAP 100) fires
as well on the same bar: two exit orders are submitted, refuting the
claim that at most one exit order is submitted per bar. -/
theorem c2_double_exit_cex :
    sC2.inPosition = true
    ∧ (process15minBar cfgEx inpC2 sC2).2 =
        [{ side := Side.sell, quantity := 5, reduceOnly := false },
         { side := Side.sell, quantity := 5, reduceOnly := false }]
    ∧ ¬((process15minBar cfgEx inpC2 sC2).2.length ≤ 1) := by
  refine ⟨rfl, ?_, ?_⟩
  · norm_num [process15minBar, bookkeep, timeExitStep, exitOrEntryStep,
      exitPosition, enterPosition, updateBands, volumeRatioOf, dequeAppend,
      sliceLast, popVariance, crossAboveCond, crossBelowCond, initialState,
      cfgEx, sC2, inpC2, Option.some_ne_none, Option.some.injEq, reduceCtorEq, List.cons_ne_nil]
    all_goals decide
  · norm_num [process15minBar, bookkeep, timeExitStep, exitOrEntryStep,
      exitPosition, enterPosition, updateBands, volumeRatioOf, dequeAppend,
      sliceLast, popVariance, crossAboveCond, crossBelowCond, initialState,
      cfgEx, sC2, inpC2, Option.some_ne_none, Option.some.injEq, reduceCtorEq, List.cons_ne_nil]

/-- C2 (amended): on a single 15-minute bar processed while in a
position, at most two exit orders can be submitted, and at most one
whenever the time-based exit condition does not hold; the band/VWAP
checks within a side are mutually exclusive (if/elif), so the only
double-submission arises from a time-based exit followed by a band/VWAP
exit on the same bar. -/
theorem c2_exit_order_bound (cfg : Config) (inp : BarInput) (s : State)
    (hpos : s.inPosition = true) :
    (process15minBar cfg inp s).2.length ≤ 2
    ∧ ((∀ et, s.entryTime = some et →
        ¬(((inp.bar.tsEvent - et : ℤ) : ℚ) / 1000000000 >
            (cfg.timeExitHours : ℚ) * 3600)) →
      (process15minBar cfg inp s).2.length ≤ 1) := by
  constructor
  · unfold process15minBar
    try dsimp only
    split
    · simp
    · split
      · simp
      · simp only [List.length_append]
        exact Nat.add_le_add (timeExitStep_orders_length ..)
          (exitOrEntryStep_orders_length ..)
  · intro hsilent
    unfold process15minBar
    try dsimp only
    split
    · simp
    · split
      · simp
      · rw [timeExitStep_of_silent cfg inp
          (updateBands cfg inp.vwap15 (bookkeep inp s)) (by
            intro et h
            exact hsilent et (by simpa using h))]
        simpa using exitOrEntryStep_orders_length ..

def sW2 : State :=
  { initialState with
    inPosition := true, positionSide := some Side.buy,
    entryTime := some 0, last15minVwap := 100, upperBand15min := 200,
    lowerBand15min := 0, volumes15min := [10], currentPositionId := some 1 }

def inpW2 : BarInput :=
  { bar := { high := 150, low := 150, close := 150, volume := 10,
             tsEvent := 900000000000 },
    vwap15Ready := true, vwap4hReady := true, vwap15 := 100, vwap4h := 0,
    netPosition := 5, balance := some 1000 }

theorem c2_exit_order_bound_wit :
    sW2.inPosition = true
    ∧ (∀ et, sW2.entryTime = some et →
        ¬(((inpW2.bar.tsEvent - et : ℤ) : ℚ) / 1000000000 >
            (cfgEx.timeExitHours : ℚ) * 3600))
    ∧ ((process15minBar cfgEx inpW2 sW2).2.length ≤ 2
      ∧ ((∀ et, sW2.entryTime = some et →
          ¬(((inpW2.bar.tsEvent - et : ℤ) : ℚ) / 1000000000 >
              (cfgEx.timeExitHours : ℚ) * 3600)) →
        (process15minBar cfgEx inpW2 sW2).2.length ≤ 1)) := by
  have hsil : ∀ et, sW2.entryTime = some et →
      ¬(((inpW2.bar.tsEvent - et : ℤ) : ℚ) / 1000000000 >
          (cfgEx.timeExitHours : ℚ) * 3600) := by
    intro et het
    have : et = 0 := by simpa [sW2, initialState] using het.symm
    subst this
    norm_num [inpW2, cfgEx]
  exact ⟨rfl, hsil, c2_exit_order_bound cfgEx inpW2 sW2 rfl⟩

/-! ### Claim C8 -/

/-- When in a position with a recorded entry time whose elapsed seconds
strictly exceed the hour limit times 3600, and the reported net position
is nonzero, the time-exit check of lines 227-236 submits exactly one
opposing order and leaves the state unchanged. -/
theorem timeExitStep_fires (cfg : Config) (inp : BarInput) (s : State)
    (side : Side) (et : ℤ)
    (hpos : s.inPosition = true) (hside : s.positionSide = some side)
    (het : s.entryTime = some et)
    (hgt : ((inp.bar.tsEvent - et : ℤ) : ℚ) / 1000000000 >
      (cfg.timeExitHours : ℚ) * 3600)
    (hnet : inp.netPosition ≠ 0) :
    timeExitStep cfg inp s =
      (s, [{ side := if side = Side.buy then Side.sell else Side.buy,
             quantity :=
               if (if side = Side.buy then Side.sell else Side.buy) = Side.buy
               then -inp.netPosition else inp.netPosition,
             reduceOnly := false }]) := by
  unfold timeExitStep
  simp only [hpos, het, if_true]
  rw [if_pos hgt]
  unfold exitPosition
  rw [hside]
  cases side <;> simp [hpos, hnet]

/-- State in a long position entered at time 0 with a 24-hour limit;
the counterexample bar arrives exactly 24 hours later. -/
def sC8 : State :=
  { initialState with
    inPosition := true, positionSide := some Side.buy,
    entryTime := some 0, last15minVwap := 100, upperBand15min := 110,
    lowerBand15min := 0, volumes15min := [10], currentPositionId := some 1 }

def inpC8 : BarInput :=
  { bar := { high := 105, low := 105, close := 105, volume := 10,
             tsEvent := 86400000000000 },
    vwap15Ready := true, vwap4hReady := true, vwap15 := 100, vwap4h := 0,
    netPosition := 5, balance := some 1000 }

/-- C8 counterexample: the elapsed wall time since entry equals the
configured limit exactly (24 hours, so "greater than or equal" holds),
the net position is nonzero, and the close sits strictly between the
VWAP and the upper band so no band exit interferes — yet no order is
submitted, because line 231 compares with strict greater-than. -/
theorem c8_time_exit_boundary_cex :
    ((inpC8.bar.tsEvent - 0 : ℤ) : ℚ) / 1000000000 =
        (cfgEx.timeExitHours : ℚ) * 3600
    ∧ sC8.inPosition = true
    ∧ sC8.entryTime = some 0
    ∧ inpC8.netPosition ≠ 0
    ∧ (process15minBar cfgEx inpC8 sC8).2 = [] := by
  refine ⟨by norm_num [inpC8, cfgEx], rfl, rfl, by norm_num [inpC8], ?_⟩
  norm_num [process15minBar, bookkeep, timeExitStep, exitOrEntryStep,
    exitPosition, enterPosition, updateBands, volumeRatioOf, dequeAppend,
    sliceLast, popVariance, crossAboveCond, crossBelowCond, initialState,
    cfgEx, sC8, inpC8, Option.some_ne_none, Option.some.injEq, reduceCtorEq, List.cons_ne_nil]

/-- C8 (amended): while in a position with a recorded entry time, a bar
whose elapsed wall time since entry is strictly greater than the
configured hour limit triggers a time-based exit unconditionally — the
submitted opposing order leads the bar's order list regardless of the
bar's price relative to the bands or the VWAP (no price hypotheses
appear); in particular a bar at entry + 24h + 1s with
`time_exit_hours = 24` triggers it. -/
theorem c8_time_exit_amended (cfg : Config) (inp : BarInput) (s : State)
    (side : Side) (et : ℤ)
    (h15 : inp.vwap15Ready = true) (h4 : inp.vwap4hReady = true)
    (hnz : s.last15minVwap ≠ 0)
    (hpos : s.inPosition = true) (hside : s.positionSide = some side)
    (het : s.entryTime = some et)
    (hnet : inp.netPosition ≠ 0)
    (hgt : ((inp.bar.tsEvent - et : ℤ) : ℚ) / 1000000000 >
      (cfg.timeExitHours : ℚ) * 3600) :
    ∃ rest, (process15minBar cfg inp s).2 =
      { side := if side = Side.buy then Side.sell else Side.buy,
        quantity :=
          if (if side = Side.buy then Side.sell else Side.buy) = Side.buy
          then -inp.netPosition else inp.netPosition,
        reduceOnly := false } :: rest := by
  unfold process15minBar
  try dsimp only
  rw [if_neg (by simp [h15, h4])]
  rw [if_neg (by simp [hnz])]
  rw [timeExitStep_fires cfg inp (updateBands cfg inp.vwap15 (bookkeep inp s))
    side et (by simp [hpos]) (by simp [hside]) (by simp [het]) hgt hnet]
  exact ⟨(exitOrEntryStep cfg inp inp.vwap15 inp.vwap4h
      (volumeRatioOf (updateBands cfg inp.vwap15 (bookkeep inp s)).volumes15min
        inp.bar.volume)
      (updateBands cfg inp.vwap15 (bookkeep inp s))).2, by simp⟩

def sW8 : State :=
  { initialState with
    inPosition := true, positionSide := some Side.buy,
    entryTime := some 0, last15minVwap := 100, upperBand15min := 110,
    lowerBand15min := 0, volumes15min := [10], currentPositionId := some 1 }

/-- Witness bar at exactly entry + 24 hours + 1 second. -/
def inpW8 : BarInput :=
  { bar := { high := 105, low := 105, close := 105, volume := 10,
             tsEvent := 86401000000000 },
    vwap15Ready := true, vwap4hReady := true, vwap15 := 100, vwap4h := 0,
    netPosition := 5, balance := some 1000 }

theorem c8_time_exit_amended_wit :
    (((inpW8.bar.tsEvent - 0 : ℤ) : ℚ) / 1000000000 >
        (cfgEx.timeExitHours : ℚ) * 3600)
    ∧ (∃ rest, (process15minBar cfgEx inpW8 sW8).2 =
        { side := if Side.buy = Side.buy then Side.sell else Side.buy,
          quantity :=
            if (if Side.buy = Side.buy then Side.sell else Side.buy) = Side.buy
            then -inpW8.netPosition else inpW8.netPosition,
          reduceOnly := false } :: rest) :=
  ⟨by norm_num [inpW8, cfgEx],
   c8_time_exit_amended cfgEx inpW8 sW8 Side.buy 0 rfl rfl
     (by norm_num [sW8, initialState]) rfl rfl rfl
     (by norm_num [inpW8]) (by norm_num [inpW8, cfgEx])⟩

/-! ### Claim C6 -/

/-- State in a long position; the counterexample's first bar triggers its
take-profit check while the portfolio reports a zero net position, which
resets the tracking flags without any close confirmation. -/
def sC6 : State :=
  { initialState with
    inPosition := true, positionSide := some Side.buy,
    entryTime := some 0, last15minVwap := 100, upperBand15min := 0,
    lowerBand15min := 0, volumes15min := [10], currentPositionId := some 7 }

def i1C6 : BarInput :=
  { bar := { high := 50, low := 50, close := 50, volume := 10,
             tsEvent := 900000000000 },
    vwap15Ready := true, vwap4hReady := true, vwap15 := 100, vwap4h := 50,
    netPosition := 0, balance := some 1000 }

def i2C6 : BarInput :=
  { bar := { high := 90, low := 90, close := 90, volume := 100,
             tsEvent := 1800000000000 },
    vwap15Ready := true, vwap4hReady := true, vwap15 := 80, vwap4h := 50,
    netPosition := 0, balance := some 1000 }

/-- C6 counterexample: starting in a position, a bar whose exit attempt
finds a zero reported net position resets the phase to FLAT without any
close confirmation (both events of this run are plain 15-minute bars;
`on_position_closed` is never invoked), and the very next bar's entry
signal is acted on — an entry order is submitted and the trade counter
increments.  This refutes the claim that subsequent entry signals are
ignored until a close confirmation for the recorded position resets the
phase. -/
theorem c6_reset_without_close_cex :
    sC6.inPosition = true
    ∧ (process15minBar cfgEx i1C6 sC6).2 = []
    ∧ (process15minBar cfgEx i1C6 sC6).1.inPosition = false
    ∧ (process15minBar cfgEx i2C6 (process15minBar cfgEx i1C6 sC6).1).2 =
        [{ side := Side.buy, quantity := 1, reduceOnly := false }]
    ∧ (process15minBar cfgEx i2C6 (process15minBar cfgEx i1C6 sC6).1).1.tradesTotal
        = sC6.tradesTotal + 1 := by
  refine ⟨rfl, ?_, ?_, ?_, ?_⟩ <;>
  · norm_num [process15minBar, bookkeep, timeExitStep, exitOrEntryStep,
      exitPosition, enterPosition, updateBands, volumeRatioOf, dequeAppend,
      sliceLast, popVariance, crossAboveCond, crossBelowCond, initialState,
      cfgEx, sC6, i1C6, i2C6, Option.some_ne_none, Option.some.injEq,
      reduceCtorEq, List.cons_ne_nil]

/-- C6 (amended): while the engine is marked in a position and the
portfolio reports a nonzero net position, a 15-minute bar never enters a
new position: the trade-total counter, the in-position flag, the recorded
side, the entry time and the recorded position identifier are all
unchanged (entry signals are not even evaluated — the entry branch is the
else of the in-position test).  The in-position flag can be cleared
without a close confirmation only through the defensive reset taken when
an exit attempt sees a zero reported net position. -/
theorem c6_single_position_amended (cfg : Config) (inp : BarInput) (s : State)
    (hpos : s.inPosition = true) (hnet : inp.netPosition ≠ 0) :
    (process15minBar cfg inp s).1.tradesTotal = s.tradesTotal
    ∧ (process15minBar cfg inp s).1.inPosition = true
    ∧ (process15minBar cfg inp s).1.positionSide = s.positionSide
    ∧ (process15minBar cfg inp s).1.entryTime = s.entryTime
    ∧ (process15minBar cfg inp s).1.currentPositionId = s.currentPositionId := by
  unfold process15minBar
  try dsimp only
  split
  · simp [hpos]
  · split
    · simp [hpos]
    · rw [timeExitStep_fst_of_net_ne_zero cfg inp
        (updateBands cfg inp.vwap15 (bookkeep inp s)) hnet]
      rw [exitOrEntryStep_fst_of_pos_net cfg inp inp.vwap15 inp.vwap4h _
        (updateBands cfg inp.vwap15 (bookkeep inp s)) (by simp [hpos]) hnet]
      refine ⟨?_, ?_, ?_, ?_, ?_⟩ <;> simp [hpos]

def sW6 : State :=
  { initialState with
    inPosition := true, positionSide := some Side.buy,
    entryTime := some 0, last15minVwap := 100, upperBand15min := 200,
    lowerBand15min := 0, volumes15min := [10], currentPositionId := some 1 }

def inpW6 : BarInput :=
  { bar := { high := 50, low := 50, close := 50, volume := 10,
             tsEvent := 900000000000 },
    vwap15Ready := true, vwap4hReady := true, vwap15 := 100, vwap4h := 0,
    netPosition := 5, balance := some 1000 }

theorem c6_single_position_amended_wit :
    sW6.inPosition = true
    ∧ inpW6.netPosition ≠ 0
    ∧ ((process15minBar cfgEx inpW6 sW6).1.tradesTotal = sW6.tradesTotal
      ∧ (process15minBar cfgEx inpW6 sW6).1.inPosition = true
      ∧ (process15minBar cfgEx inpW6 sW6).1.positionSide = sW6.positionSide
      ∧ (process15minBar cfgEx inpW6 sW6).1.entryTime = sW6.entryTime
      ∧ (process15minBar cfgEx inpW6 sW6).1.currentPositionId =
          sW6.currentPositionId) :=
  ⟨rfl, by norm_num [inpW6],
   c6_single_position_amended cfgEx inpW6 sW6 rfl (by norm_num [inpW6])⟩

/-! ### Claim C3 -/

/-- Flat state whose next bar satisfies all long-entry conditions. -/
def sC3 : State :=
  { initialState with last15minVwap := 100, volumes15min := [10, 10] }

def inpC3 : BarInput :=
  { bar := { high := 90, low := 90, close := 90, volume := 100, tsEvent := 0 },
    vwap15Ready := true, vwap4hReady := true, vwap15 := 80, vwap4h := 50,
    netPosition := 0, balance := some 1000 }

/-- C3 counterexample: a plain 15-minute bar event (not a position-closed
event) that triggers an entry increments the total-trade counter — the
source increments `trades_total` in `_enter_position` (line 397), on
order submission, refuting the claim that the counters change only when
a confirmed position-closed event is processed. -/
theorem c3_total_on_entry_cex :
    sC3.tradesTotal = 0
    ∧ (handleEvent cfgEx (Event.bar15 inpC3) sC3).1.tradesTotal = 1
    ∧ (handleEvent cfgEx (Event.bar15 inpC3) sC3).2 =
        [{ side := Side.buy, quantity := 1, reduceOnly := false }] := by
  refine ⟨rfl, ?_, ?_⟩ <;>
  · norm_num [handleEvent, process15minBar, bookkeep, timeExitStep,
      exitOrEntryStep, exitPosition, enterPosition, updateBands, volumeRatioOf,
      dequeAppend, sliceLast, popVariance, crossAboveCond, crossBelowCond,
      initialState, cfgEx, sC3, inpC3, Option.some_ne_none, Option.some.injEq,
      reduceCtorEq, List.cons_ne_nil]

/-- C3 (amended): across every event the three trade counters never
decrease; the win and loss counters change only on a position-closed
event for the configured instrument whose position identifier matches the
recorded one; the total counter never changes on a position-closed,
position-opened, 4-hour-bar or unrecognized-bar event — it changes (by
exactly one) only on a 15-minute bar event, where `_enter_position`
increments it on entry-order submission. -/
theorem c3_counters_amended (cfg : Config) (e : Event) (s : State) :
    s.tradesTotal ≤ (handleEvent cfg e s).1.tradesTotal
    ∧ s.tradesWon ≤ (handleEvent cfg e s).1.tradesWon
    ∧ s.tradesLost ≤ (handleEvent cfg e s).1.tradesLost
    ∧ (((handleEvent cfg e s).1.tradesWon ≠ s.tradesWon
        ∨ (handleEvent cfg e s).1.tradesLost ≠ s.tradesLost) →
      ∃ pid pnl, e = Event.positionClosed cfg.instrumentId pid pnl
        ∧ s.currentPositionId = some pid)
    ∧ (∀ i p pnl, e = Event.positionClosed i p pnl →
      (handleEvent cfg e s).1.tradesTotal = s.tradesTotal)
    ∧ (∀ i p, e = Event.positionOpened i p →
      (handleEvent cfg e s).1.tradesTotal = s.tradesTotal
      ∧ (handleEvent cfg e s).1.tradesWon = s.tradesWon
      ∧ (handleEvent cfg e s).1.tradesLost = s.tradesLost)
    ∧ (∀ inp, e = Event.bar15 inp →
      (handleEvent cfg e s).1.tradesTotal = s.tradesTotal
      ∨ (handleEvent cfg e s).1.tradesTotal = s.tradesTotal + 1) := by
  cases e with
  | bar15 inp =>
    have hw := process15minBar_won_lost cfg inp s
    have ht := process15minBar_total_cases cfg inp s
    refine ⟨?_, ?_, ?_, ?_, ?_, ?_, ?_⟩
    · rcases ht with h | h <;> simp [handleEvent, h]
    · simp [handleEvent, hw.1]
    · simp [handleEvent, hw.2]
    · intro h
      rcases h with h | h
      · exact absurd (by simpa [handleEvent] using hw.1) h
      · exact absurd (by simpa [handleEvent] using hw.2) h
    · intro i p pnl h
      cases h
    · intro i p h
      cases h
    · intro inp2 h
      cases h
      simpa [handleEvent] using ht
  | bar4h b =>
    refine ⟨le_refl _, le_refl _, le_refl _, ?_, ?_, ?_, ?_⟩
    · intro h
      rcases h with h | h <;> simp [handleEvent, process4hBar] at h
    · intro i p pnl h
      cases h
    · intro i p h
      cases h
    · intro inp h
      cases h
  | barOther b =>
    refine ⟨le_refl _, le_refl _, le_refl _, ?_, ?_, ?_, ?_⟩
    · intro h
      rcases h with h | h <;> simp [handleEvent] at h
    · intro i p pnl h
      cases h
    · intro i p h
      cases h
    · intro inp h
      cases h
  | positionOpened i p =>
    have hcnt : (handleEvent cfg (Event.positionOpened i p) s).1.tradesTotal =
          s.tradesTotal
        ∧ (handleEvent cfg (Event.positionOpened i p) s).1.tradesWon = s.tradesWon
        ∧ (handleEvent cfg (Event.positionOpened i p) s).1.tradesLost =
          s.tradesLost := by
      simp only [handleEvent, onPositionOpened]
      split <;> exact ⟨rfl, rfl, rfl⟩
    refine ⟨le_of_eq hcnt.1.symm, le_of_eq hcnt.2.1.symm, le_of_eq hcnt.2.2.symm,
      ?_, ?_, ?_, ?_⟩
    · intro h
      rcases h with h | h
      · exact absurd hcnt.2.1 h
      · exact absurd hcnt.2.2 h
    · intro i2 p2 pnl h
      cases h
    · intro i2 p2 h
      exact hcnt
    · intro inp h
      cases h
  | positionClosed i p pnl =>
    simp only [handleEvent, onPositionClosed]
    split
    · refine ⟨le_refl _, le_refl _, le_refl _, ?_, fun _ _ _ _ => rfl,
        ?_, ?_⟩
      · intro h
        rcases h with h | h <;> simp at h
      · intro i2 p2 h
        cases h
      · intro inp h
        cases h
    · next hinstr =>
      have hieq : i = cfg.instrumentId := by
        by_contra hne
        exact hinstr hne
      split
      · next hid =>
        split
        · refine ⟨by simp, by simp, by simp, ?_, fun _ _ _ _ => by simp,
            ?_, ?_⟩
          · intro _
            exact ⟨p, pnl, by rw [hieq], hid⟩
          · intro i2 p2 h
            cases h
          · intro inp h
            cases h
        · refine ⟨by simp, by simp, by simp, ?_, fun _ _ _ _ => by simp,
            ?_, ?_⟩
          · intro _
            exact ⟨p, pnl, by rw [hieq], hid⟩
          · intro i2 p2 h
            cases h
          · intro inp h
            cases h
      · refine ⟨le_refl _, le_refl _, le_refl _, ?_, fun _ _ _ _ => rfl,
          ?_, ?_⟩
        · intro h
          rcases h with h | h <;> simp at h
        · intro i2 p2 h
          cases h
        · intro inp h
          cases h

def sW3 : State :=
  { initialState with
    inPosition := true, positionSide := some Side.buy,
    entryTime := some 0, currentPositionId := some 9, tradesTotal := 4,
    tradesWon := 2, tradesLost := 1 }

theorem c3_counters_amended_wit :
    sW3.tradesTotal ≤
        (handleEvent cfgEx (Event.positionClosed 1 9 5) sW3).1.tradesTotal
    ∧ sW3.tradesWon ≤
        (handleEvent cfgEx (Event.positionClosed 1 9 5) sW3).1.tradesWon
    ∧ sW3.tradesLost ≤
        (handleEvent cfgEx (Event.positionClosed 1 9 5) sW3).1.tradesLost
    ∧ (((handleEvent cfgEx (Event.positionClosed 1 9 5) sW3).1.tradesWon ≠
          sW3.tradesWon
        ∨ (handleEvent cfgEx (Event.positionClosed 1 9 5) sW3).1.tradesLost ≠
          sW3.tradesLost) →
      ∃ pid pnl, Event.positionClosed 1 9 5 =
          Event.positionClosed cfgEx.instrumentId pid pnl
        ∧ sW3.currentPositionId = some pid)
    ∧ (∀ i p pnl, Event.positionClosed 1 9 5 = Event.positionClosed i p pnl →
      (handleEvent cfgEx (Event.positionClosed 1 9 5) sW3).1.tradesTotal =
        sW3.tradesTotal)
    ∧ (∀ i p, Event.positionClosed 1 9 5 = Event.positionOpened i p →
      (handleEvent cfgEx (Event.positionClosed 1 9 5) sW3).1.tradesTotal =
          sW3.tradesTotal
      ∧ (handleEvent cfgEx (Event.positionClosed 1 9 5) sW3).1.tradesWon =
          sW3.tradesWon
      ∧ (handleEvent cfgEx (Event.positionClosed 1 9 5) sW3).1.tradesLost =
          sW3.tradesLost)
    ∧ (∀ inp, Event.positionClosed 1 9 5 = Event.bar15 inp →
      (handleEvent cfgEx (Event.positionClosed 1 9 5) sW3).1.tradesTotal =
          sW3.tradesTotal
      ∨ (handleEvent cfgEx (Event.positionClosed 1 9 5) sW3).1.tradesTotal =
          sW3.tradesTotal + 1) :=
  c3_counters_amended cfgEx (Event.positionClosed 1 9 5) sW3

/-! ### Claim C5 -/

/-- While flat, a volume ratio below the threshold blocks both entry
branches, so the lines 239-309 block does nothing. -/
theorem exitOrEntryStep_flat_lowvol (cfg : Config) (inp : BarInput)
    (vwap15 vwap4h vrat : ℚ) (s : State)
    (hflat : s.inPosition = false) (hlt : vrat < cfg.entryVolumeThreshold) :
    exitOrEntryStep cfg inp vwap15 vwap4h vrat s = (s, []) := by
  unfold exitOrEntryStep
  rw [if_neg (by simp [hflat])]
  rw [if_neg (fun h => absurd h.2.2 (not_le.mpr hlt))]
  rw [if_neg (fun h => absurd h.2.2 (not_le.mpr hlt))]

/-- When the deque average underlying the ratio is zero, the ratio is
defined as zero (lines 213-217). -/
theorem volumeRatioOf_eq_zero (volumes : List ℚ) (v : ℚ)
    (h : volumes.sum / (volumes.length : ℚ) = 0) :
    volumeRatioOf volumes v = 0 := by
  unfold volumeRatioOf
  try dsimp only
  split
  · rfl
  · next hne =>
    rfl

/-- Configuration with volume threshold 2 for the counterexample. -/
def cfgC5 : Config := { cfgEx with entryVolumeThreshold := 2 }

/-- Flat state with trailing volume history `[10]`. -/
def sC5 : State := { initialState with last15minVwap := 100, volumes15min := [10] }

def inpC5 : BarInput :=
  { bar := { high := 90, low := 90, close := 90, volume := 30, tsEvent := 0 },
    vwap15Ready := true, vwap4hReady := true, vwap15 := 80, vwap4h := 50,
    netPosition := 0, balance := some 1000 }

/-- C5 counterexample: the ratio described by the claim — current volume
30 divided by the average of the trailing history excluding the current
bar ([10], average 10), giving 3 — meets the threshold 2, and every other
long-entry condition holds (uptrend, cross-above, balance available,
positive stop distance), yet the engine submits no order: the source
appends the current volume to the deque (line 154) before averaging
(lines 207-211), so its ratio is 30 / ((10+30)/2) = 3/2 < 2 and the
signal is suppressed. -/
theorem c5_volume_ratio_cex :
    (30 : ℚ) / (sC5.volumes15min.sum / (sC5.volumes15min.length : ℚ)) ≥
        cfgC5.entryVolumeThreshold
    ∧ inpC5.bar.close > inpC5.vwap4h
    ∧ crossAboveCond inpC5.bar.close inpC5.vwap15 sC5.last15minVwap = true
    ∧ inpC5.balance = some 1000
    ∧ inpC5.bar.close ≠ sC5.lowerBand15min
    ∧ volumeRatioOf (dequeAppend 20 sC5.volumes15min inpC5.bar.volume)
        inpC5.bar.volume < cfgC5.entryVolumeThreshold
    ∧ (process15minBar cfgC5 inpC5 sC5).2 = []
    ∧ (process15minBar cfgC5 inpC5 sC5).1.inPosition = false := by
  refine ⟨?_, ?_, ?_, rfl, ?_, ?_, ?_, ?_⟩ <;>
  · norm_num [process15minBar, bookkeep, timeExitStep, exitOrEntryStep,
      exitPosition, enterPosition, updateBands, volumeRatioOf, dequeAppend,
      sliceLast, popVariance, crossAboveCond, crossBelowCond, initialState,
      cfgEx, cfgC5, sC5, inpC5, Option.some_ne_none, Option.some.injEq,
      reduceCtorEq, List.cons_ne_nil]

/-- C5 (amended): for a bar evaluated while flat, the volume ratio is the
current bar's volume divided by the average over the fixed-capacity
trailing history after the current volume has been appended to it
(capacity 20, oldest entries evicted); if that ratio is below the
threshold no order is submitted, and if the average itself is zero the
ratio is defined as 0, so with a positive threshold the signal is
suppressed and no division by zero occurs. -/
theorem c5_volume_filter_amended (cfg : Config) (inp : BarInput) (s : State)
    (hflat : s.inPosition = false) (hpost : 0 < cfg.entryVolumeThreshold) :
    (volumeRatioOf (dequeAppend 20 s.volumes15min inp.bar.volume) inp.bar.volume
        < cfg.entryVolumeThreshold →
      (process15minBar cfg inp s).2 = [])
    ∧ ((dequeAppend 20 s.volumes15min inp.bar.volume).sum /
          ((dequeAppend 20 s.volumes15min inp.bar.volume).length : ℚ) = 0 →
      (process15minBar cfg inp s).2 = []) := by
  have main : volumeRatioOf (dequeAppend 20 s.volumes15min inp.bar.volume)
      inp.bar.volume < cfg.entryVolumeThreshold →
      (process15minBar cfg inp s).2 = [] := by
    intro hlt
    unfold process15minBar
    try dsimp only
    split
    · rfl
    · split
      · rfl
      · rw [timeExitStep_of_flat cfg inp _ (by simp [hflat])]
        rw [exitOrEntryStep_flat_lowvol cfg inp inp.vwap15 inp.vwap4h _ _
          (by simp [hflat]) (by simpa using hlt)]
        rfl
  refine ⟨main, fun hz => main ?_⟩
  rw [volumeRatioOf_eq_zero _ _ hz]
  exact hpost

def sW5 : State := { initialState with last15minVwap := 100, volumes15min := [10] }

def inpW5 : BarInput :=
  { bar := { high := 90, low := 90, close := 90, volume := 10, tsEvent := 0 },
    vwap15Ready := true, vwap4hReady := true, vwap15 := 80, vwap4h := 50,
    netPosition := 0, balance := some 1000 }

theorem c5_volume_filter_amended_wit :
    sW5.inPosition = false
    ∧ (0 : ℚ) < cfgEx.entryVolumeThreshold
    ∧ volumeRatioOf (dequeAppend 20 sW5.volumes15min inpW5.bar.volume)
        inpW5.bar.volume < cfgEx.entryVolumeThreshold
    ∧ ((volumeRatioOf (dequeAppend 20 sW5.volumes15min inpW5.bar.volume)
          inpW5.bar.volume < cfgEx.entryVolumeThreshold →
        (process15minBar cfgEx inpW5 sW5).2 = [])
      ∧ ((dequeAppend 20 sW5.volumes15min inpW5.bar.volume).sum /
            ((dequeAppend 20 sW5.volumes15min inpW5.bar.volume).length : ℚ) = 0 →
        (process15minBar cfgEx inpW5 sW5).2 = [])) :=
  ⟨rfl, by norm_num [cfgEx],
   by norm_num [volumeRatioOf, dequeAppend, sW5, inpW5, cfgEx, initialState,
     List.cons_ne_nil],
   c5_volume_filter_amended cfgEx inpW5 sW5 rfl (by norm_num [cfgEx])⟩

/-! ### Claim C1 -/

/-- A successful entry records the side and the in-position flag. -/
theorem enterPosition_success (cfg : Config) (side : Side) (inp : BarInput)
    (s : State) (b : ℚ)
    (hflat : s.inPosition = false) (hb : inp.balance = some b)
    (hd : ¬(|inp.bar.close -
        (if side = Side.buy then s.lowerBand15min else s.upperBand15min)| ≤ 0)) :
    (enterPosition cfg side inp s).1.positionSide = some side
    ∧ (enterPosition cfg side inp s).1.inPosition = true := by
  unfold enterPosition
  try dsimp only
  simp only [hflat, Bool.false_eq_true, if_false, hb]
  rw [if_neg hd]
  exact ⟨rfl, rfl⟩

/-- An entry attempt either leaves the recorded side unchanged (abort
paths) or sets it to the attempted side. -/
theorem enterPosition_positionSide_cases (cfg : Config) (side : Side)
    (inp : BarInput) (s : State) :
    (enterPosition cfg side inp s).1.positionSide = s.positionSide
    ∨ (enterPosition cfg side inp s).1.positionSide = some side := by
  unfold enterPosition
  try dsimp only
  repeat' split
  all_goals first | exact Or.inl rfl | exact Or.inr rfl

/-- C1 (amended): while flat, with both indicators ready, the band window
not yet full, the balance available and a positive stop distance for a
long entry, the engine records a long position iff the CURRENT bar's
close exceeds the current 15-minute VWAP and is at-or-below the VWAP
stored at the previous update (together with the 4-hour trend and volume
conditions).  The comparison uses the current close because line 158
overwrites `last_15min_price` with it before the crossover is evaluated;
the claim's lagged reading (previous close against the VWAPs of one and
two updates prior) does not describe the code.  On the first
post-initialization bar the stored previous VWAP is still 0, the whole
signal block is skipped, and no signal of any kind fires. -/
theorem c1_crossover_amended (cfg : Config) (inp : BarInput) (s : State) (b : ℚ)
    (h15 : inp.vwap15Ready = true) (h4 : inp.vwap4hReady = true)
    (hflat : s.inPosition = false) (hside : s.positionSide = none)
    (hlen : s.bars15min.length + 1 < cfg.vwapPeriod15min)
    (hbal : inp.balance = some b)
    (hstop : inp.bar.close ≠ s.lowerBand15min) :
    (s.last15minVwap ≠ 0 →
      ((process15minBar cfg inp s).1.positionSide = some Side.buy ↔
        (inp.bar.close > inp.vwap4h
          ∧ crossAboveCond inp.bar.close inp.vwap15 s.last15minVwap = true
          ∧ volumeRatioOf (dequeAppend 20 s.volumes15min inp.bar.volume)
              inp.bar.volume ≥ cfg.entryVolumeThreshold)))
    ∧ (s.last15minVwap = 0 →
      (process15minBar cfg inp s).2 = []
      ∧ (process15minBar cfg inp s).1.positionSide = none) := by
  have hub : updateBands cfg inp.vwap15 (bookkeep inp s) = bookkeep inp s :=
    updateBands_of_short cfg inp.vwap15 (bookkeep inp s)
      (by simpa using hlen)
  constructor
  · intro hnz
    unfold process15minBar
    try dsimp only
    rw [if_neg (by simp [h15, h4])]
    rw [hub]
    rw [if_neg (by simp [hnz])]
    rw [timeExitStep_of_flat cfg inp _ (by simp [hflat])]
    unfold exitOrEntryStep
    try dsimp only
    rw [if_neg (by simp [hflat])]
    by_cases hbuy : inp.bar.close > inp.vwap4h
        ∧ crossAboveCond inp.bar.close inp.vwap15 s.last15minVwap = true
        ∧ volumeRatioOf (dequeAppend 20 s.volumes15min inp.bar.volume)
            inp.bar.volume ≥ cfg.entryVolumeThreshold
    · rw [if_pos (by simpa using hbuy)]
      have hsucc := enterPosition_success cfg Side.buy inp (bookkeep inp s) b
        (by simp [hflat]) hbal (by
          simp only [if_pos rfl, bookkeep_lowerBand]
          rw [not_le, abs_pos, sub_ne_zero]
          exact hstop)
      exact iff_of_true hsucc.1 hbuy
    · rw [if_neg (by simpa using hbuy)]
      split
      · rcases enterPosition_positionSide_cases cfg Side.sell inp (bookkeep inp s)
          with h | h
        · exact iff_of_false (by simp [h, hside]) hbuy
        · exact iff_of_false (by simp [h]) hbuy
      · exact iff_of_false (by simp [hside]) hbuy
  · intro hz
    unfold process15minBar
    try dsimp only
    rw [if_neg (by simp [h15, h4])]
    rw [hub]
    rw [if_pos (by simp [hz])]
    exact ⟨rfl, by simp [hside]⟩

/-- Flat state whose stored previous VWAP is 10; the first counterexample
bar closes at 7 with current VWAP 5. -/
def s0C1 : State := { initialState with last15minVwap := 10 }

def i1C1 : BarInput :=
  { bar := { high := 7, low := 7, close := 7, volume := 10, tsEvent := 0 },
    vwap15Ready := true, vwap4hReady := true, vwap15 := 5, vwap4h := 1,
    netPosition := 0, balance := some 1000 }

def i2C1 : BarInput :=
  { bar := { high := 3, low := 3, close := 3, volume := 30,
             tsEvent := 900000000000 },
    vwap15Ready := true, vwap4hReady := true, vwap15 := 5, vwap4h := 1,
    netPosition := 0, balance := some 1000 }

/-- C1 counterexample: on the second bar the claim's condition holds —
the PREVIOUS bar's close (7) was above the previous update's VWAP (5) and
at-or-below the VWAP two updates prior (10) — and the trend and volume
conditions also hold (close 3 > 4h-VWAP 1; ratio 30/((10+30)/2) = 3/2
meets the 3/2 threshold), so by the claim a cross-above entry should
fire.  The code instead evaluates the crossover on the CURRENT close
(`last_15min_price` was overwritten at line 158): 3 > 5 fails, so no
order is submitted and no position is recorded.  The claimed "iff" is
therefore false on this bar. -/
theorem c1_crossover_lag_cex :
    crossAboveCond i1C1.bar.close i1C1.vwap15 s0C1.last15minVwap = true
    ∧ crossAboveCond i2C1.bar.close i2C1.vwap15
        (process15minBar cfgEx i1C1 s0C1).1.last15minVwap = false
    ∧ i2C1.bar.close > i2C1.vwap4h
    ∧ volumeRatioOf
        (dequeAppend 20 (process15minBar cfgEx i1C1 s0C1).1.volumes15min
          i2C1.bar.volume) i2C1.bar.volume ≥ cfgEx.entryVolumeThreshold
    ∧ (process15minBar cfgEx i1C1 s0C1).2 = []
    ∧ (process15minBar cfgEx i2C1 (process15minBar cfgEx i1C1 s0C1).1).2 = []
    ∧ (process15minBar cfgEx i2C1
        (process15minBar cfgEx i1C1 s0C1).1).1.positionSide = none := by
  refine ⟨?_, ?_, ?_, ?_, ?_, ?_, ?_⟩ <;>
  · norm_num [process15minBar, bookkeep, timeExitStep, exitOrEntryStep,
      exitPosition, enterPosition, updateBands, volumeRatioOf, dequeAppend,
      sliceLast, popVariance, crossAboveCond, crossBelowCond, initialState,
      cfgEx, s0C1, i1C1, i2C1, Option.some_ne_none, Option.some.injEq,
      reduceCtorEq, List.cons_ne_nil]

/-- Flat state meeting every long-entry condition on the witness bar. -/
def sW1 : State :=
  { initialState with last15minVwap := 100, volumes15min := [10, 10] }

def inpW1 : BarInput :=
  { bar := { high := 90, low := 90, close := 90, volume := 100, tsEvent := 0 },
    vwap15Ready := true, vwap4hReady := true, vwap15 := 80, vwap4h := 50,
    netPosition := 0, balance := some 1000 }

theorem c1_crossover_amended_wit :
    sW1.last15minVwap ≠ 0
    ∧ ((sW1.last15minVwap ≠ 0 →
        ((process15minBar cfgEx inpW1 sW1).1.positionSide = some Side.buy ↔
          (inpW1.bar.close > inpW1.vwap4h
            ∧ crossAboveCond inpW1.bar.close inpW1.vwap15 sW1.last15minVwap = true
            ∧ volumeRatioOf (dequeAppend 20 sW1.volumes15min inpW1.bar.volume)
                inpW1.bar.volume ≥ cfgEx.entryVolumeThreshold)))
      ∧ (sW1.last15minVwap = 0 →
        (process15minBar cfgEx inpW1 sW1).2 = []
        ∧ (process15minBar cfgEx inpW1 sW1).1.positionSide = none)) :=
  ⟨by norm_num [sW1, initialState],
   c1_crossover_amended cfgEx inpW1 sW1 1000 rfl rfl rfl rfl
     (by norm_num [sW1, cfgEx, initialState]) rfl
     (by norm_num [sW1, inpW1, initialState])⟩

/-! ### Claim C9 -/

/-- Configuration with a two-bar band window and multiplier 1. -/
def cfgC9 : Config := { cfgEx with vwapPeriod15min := 2, stdDevMultiplier := 1 }

/-- One stored bar with typical price 1; the incoming bar has typical
price 3, so the band window's typical prices are [1, 3]. -/
def sC9 : State :=
  { initialState with
    bars15min := [{ high := 1, low := 1, close := 1, volume := 10, tsEvent := 0 }],
    last15minVwap := 100 }

def inpC9 : BarInput :=
  { bar := { high := 3, low := 3, close := 3, volume := 10,
             tsEvent := 900000000000 },
    vwap15Ready := true, vwap4hReady := true, vwap15 := 0, vwap4h := 50,
    netPosition := 0, balance := some 1000 }

/-- C9 counterexample: over the window of typical prices [1, 3] with
center 0 and multiplier 1, the code's standard deviation is `np.std`
(population, divide by N): variance 1, square root 1, so the engine sets
the upper band to 1 (the configuration instantiates the abstract square
root with the identity, which agrees with the true square root at the
argument 1, as the fourth conjunct records).  The claim's sample standard
deviation has variance 2 and square root √2 ≠ 1, so the claimed band
`center + multiplier·sample-std` differs from the band the code
computes. -/
theorem c9_stddev_cex :
    ((process15minBar cfgC9 inpC9 sC9).1.upperBand15min = 1
      ∧ (process15minBar cfgC9 inpC9 sC9).1.lowerBand15min = -1)
    ∧ popVariance [1, 3] = 1
    ∧ sampleVariance [1, 3] = 2
    ∧ Real.sqrt ((popVariance [1, 3] : ℚ) : ℝ) = 1
    ∧ Real.sqrt ((sampleVariance [1, 3] : ℚ) : ℝ) ≠ 1 := by
  refine ⟨⟨?_, ?_⟩, ?_, ?_, ?_, ?_⟩
  · norm_num [process15minBar, bookkeep, timeExitStep, exitOrEntryStep,
      exitPosition, enterPosition, updateBands, volumeRatioOf, dequeAppend,
      sliceLast, popVariance, crossAboveCond, crossBelowCond, initialState,
      cfgEx, cfgC9, sC9, inpC9, Option.some_ne_none, Option.some.injEq,
      reduceCtorEq, List.cons_ne_nil]
  · norm_num [process15minBar, bookkeep, timeExitStep, exitOrEntryStep,
      exitPosition, enterPosition, updateBands, volumeRatioOf, dequeAppend,
      sliceLast, popVariance, crossAboveCond, crossBelowCond, initialState,
      cfgEx, cfgC9, sC9, inpC9, Option.some_ne_none, Option.some.injEq,
      reduceCtorEq, List.cons_ne_nil]
  · norm_num [popVariance]
  · norm_num [sampleVariance]
  · have h1 : ((popVariance [1, 3] : ℚ) : ℝ) = 1 := by norm_num [popVariance]
    rw [h1, Real.sqrt_one]
  · have h2 : ((sampleVariance [1, 3] : ℚ) : ℝ) = 2 := by
      norm_num [sampleVariance]
    rw [h2]
    intro h
    rw [show (1 : ℝ) = Real.sqrt 1 from (Real.sqrt_one).symm] at h
    have := (Real.sqrt_inj (by norm_num) (by norm_num)).mp h
    norm_num at this

/-- C9 (amended): whenever at least `vwap_period_15min` 15-minute bars
exist after the current bar is stored, the bands set on that bar equal
the current 15-minute VWAP plus/minus `multiplier · std_dev`, where
`std_dev` is `np.std` of the typical prices `(high+low+close)/3` of the
most recent `vwap_period_15min` bars — the POPULATION standard deviation
(square root of the mean of squared deviations, `cfg.sqrtFn` applied to
`popVariance`), not the sample standard deviation the claim names. -/
theorem c9_bands_amended (cfg : Config) (inp : BarInput) (s : State)
    (h15 : inp.vwap15Ready = true) (h4 : inp.vwap4hReady = true)
    (hfull : cfg.vwapPeriod15min ≤ s.bars15min.length + 1) :
    (process15minBar cfg inp s).1.upperBand15min =
      inp.vwap15 + cfg.sqrtFn (popVariance
        ((sliceLast cfg.vwapPeriod15min (s.bars15min ++ [inp.bar])).map
          (fun bb => (bb.high + bb.low + bb.close) / 3))) * cfg.stdDevMultiplier
    ∧ (process15minBar cfg inp s).1.lowerBand15min =
      inp.vwap15 - cfg.sqrtFn (popVariance
        ((sliceLast cfg.vwapPeriod15min (s.bars15min ++ [inp.bar])).map
          (fun bb => (bb.high + bb.low + bb.close) / 3))) * cfg.stdDevMultiplier := by
  have hfull2 : cfg.vwapPeriod15min ≤ (bookkeep inp s).bars15min.length := by
    simpa using hfull
  have hb := updateBands_of_full cfg inp.vwap15 (bookkeep inp s) hfull2
  unfold process15minBar
  try dsimp only
  rw [if_neg (by simp [h15, h4])]
  split
  · exact ⟨by simpa using hb.1, by simpa using hb.2⟩
  · exact ⟨by simpa using hb.1, by simpa using hb.2⟩

theorem c9_bands_amended_wit :
    cfgC9.vwapPeriod15min ≤ sC9.bars15min.length + 1
    ∧ ((process15minBar cfgC9 inpC9 sC9).1.upperBand15min =
        inpC9.vwap15 + cfgC9.sqrtFn (popVariance
          ((sliceLast cfgC9.vwapPeriod15min (sC9.bars15min ++ [inpC9.bar])).map
            (fun bb => (bb.high + bb.low + bb.close) / 3))) *
          cfgC9.stdDevMultiplier
      ∧ (process15minBar cfgC9 inpC9 sC9).1.lowerBand15min =
        inpC9.vwap15 - cfgC9.sqrtFn (popVariance
          ((sliceLast cfgC9.vwapPeriod15min (sC9.bars15min ++ [inpC9.bar])).map
            (fun bb => (bb.high + bb.low + bb.close) / 3))) *
          cfgC9.stdDevMultiplier) :=
  ⟨by norm_num [cfgC9, cfgEx, sC9, initialState],
   c9_bands_amended cfgC9 inpC9 sC9 rfl rfl
     (by norm_num [cfgC9, cfgEx, sC9, initialState])⟩

end Vwap
